import Mathlib

/-!
Verification of the API-key authentication core of the climateguard backend.

The development shallowly embeds the functions of `app/auth.py`
(`generate_api_key`, `hash_api_key`, `verify_api_key`,
`is_valid_api_key_format`) and the request-authentication dependency
`get_current_user` of `app/dependencies.py`.  Bytes are modelled as `Nat`
values below 256, machine words as `Nat` reduced modulo `2 ^ 32`, and the
standard-library primitives the code calls (`hashlib.pbkdf2_hmac` with
SHA-256, `secrets.compare_digest`, `secrets.token_urlsafe`) are modelled
from their reference definitions (FIPS 180-4, RFC 2104, RFC 8018, the
CPython `_tscmp` loop, RFC 4648 URL-safe base64).
-/

namespace ClimateGuard

/-! ## 32-bit word arithmetic on Nat -/

/-- Reduce a natural number to a 32-bit word. -/
def w32 (n : Nat) : Nat := n % 4294967296

/-- Right rotation of a 32-bit word. -/
def rotr32 (n x : Nat) : Nat := w32 ((x >>> n) ||| (x <<< (32 - n)))

/-- Bitwise complement of a 32-bit word. -/
def not32 (x : Nat) : Nat := x ^^^ 4294967295

/-! ## SHA-256 (FIPS 180-4), as used by hashlib -/

def shaCh (x y z : Nat) : Nat := (x &&& y) ^^^ (not32 x &&& z)

def shaMaj (x y z : Nat) : Nat := (x &&& y) ^^^ (x &&& z) ^^^ (y &&& z)

def bigSigma0 (x : Nat) : Nat := rotr32 2 x ^^^ rotr32 13 x ^^^ rotr32 22 x

def bigSigma1 (x : Nat) : Nat := rotr32 6 x ^^^ rotr32 11 x ^^^ rotr32 25 x

def smallSigma0 (x : Nat) : Nat := rotr32 7 x ^^^ rotr32 18 x ^^^ (x >>> 3)

def smallSigma1 (x : Nat) : Nat := rotr32 17 x ^^^ rotr32 19 x ^^^ (x >>> 10)

/-- The 64 SHA-256 round constants (FIPS 180-4 section 4.2.2, written in
decimal). -/
def sha256K : List Nat :=
  [1116352408, 1899447441, 3049323471, 3921009573, 961987163,
   1508970993, 2453635748, 2870763221, 3624381080, 310598401,
   607225278, 1426881987, 1925078388, 2162078206, 2614888103,
   3248222580, 3835390401, 4022224774, 264347078, 604807628,
   770255983, 1249150122, 1555081692, 1996064986, 2554220882,
   2821834349, 2952996808, 3210313671, 3336571891, 3584528711,
   113926993, 338241895, 666307205, 773529912, 1294757372,
   1396182291, 1695183700, 1986661051, 2177026350, 2456956037,
   2730485921, 2820302411, 3259730800, 3345764771, 3516065817,
   3600352804, 4094571909, 275423344, 430227734, 506948616,
   659060556, 883997877, 958139571, 1322822218, 1537002063,
   1747873779, 1955562222, 2024104815, 2227730452, 2361852424,
   2428436474, 2756734187, 3204031479, 3329325298]

/-- Big-endian 8-byte encoding of a (bit-)length. -/
def int64be (n : Nat) : List Nat :=
  [(n >>> 56) % 256, (n >>> 48) % 256, (n >>> 40) % 256, (n >>> 32) % 256,
   (n >>> 24) % 256, (n >>> 16) % 256, (n >>> 8) % 256, n % 256]

/-- Big-endian 4-byte encoding of a 32-bit word. -/
def word32be (n : Nat) : List Nat :=
  [(n >>> 24) % 256, (n >>> 16) % 256, (n >>> 8) % 256, n % 256]

/-- SHA-256 message padding: append `0x80`, zero bytes up to 56 mod 64,
then the 8-byte big-endian bit length. -/
def sha256Pad (msg : List Nat) : List Nat :=
  msg ++ [128] ++ List.replicate ((119 - msg.length % 64) % 64) 0
      ++ int64be (8 * msg.length)

/-- A big-endian word from four bytes. -/
def beWord (b0 b1 b2 b3 : Nat) : Nat := ((b0 * 256 + b1) * 256 + b2) * 256 + b3

/-- The 16 message words of a 64-byte chunk. -/
def chunkWords (chunk : List Nat) : List Nat :=
  (List.range 16).map (fun i =>
    beWord (chunk.getD (4 * i) 0) (chunk.getD (4 * i + 1) 0)
      (chunk.getD (4 * i + 2) 0) (chunk.getD (4 * i + 3) 0))

/-- One extension step of the message schedule: with `t = w.length`, append
`sigma1 W[t-2] + W[t-7] + sigma0 W[t-15] + W[t-16]` modulo `2 ^ 32`. -/
def scheduleStep (w : List Nat) : List Nat :=
  w ++ [w32 (smallSigma1 (w.getD (w.length - 2) 0) + w.getD (w.length - 7) 0
    + smallSigma0 (w.getD (w.length - 15) 0) + w.getD (w.length - 16) 0)]

/-- Extend the 16 chunk words to the 64-word message schedule. -/
def schedule (w : List Nat) : List Nat :=
  (List.range 48).foldl (fun acc _ => scheduleStep acc) w

/-- The eight working variables of the SHA-256 compression function. -/
structure SHAState where
  a : Nat
  b : Nat
  c : Nat
  d : Nat
  e : Nat
  f : Nat
  g : Nat
  h : Nat

/-- The SHA-256 initial hash value (FIPS 180-4 section 5.3.3, written in
decimal). -/
def sha256Init : SHAState :=
  ⟨1779033703, 3144134277, 1013904242, 2773480762,
   1359893119, 2600822924, 528734635, 1541459225⟩

/-- One round of the SHA-256 compression function, consuming a pair of a
round constant and a schedule word. -/
def shaRound (st : SHAState) (kw : Nat × Nat) : SHAState :=
  let t1 := w32 (st.h + bigSigma1 st.e + shaCh st.e st.f st.g + kw.1 + kw.2)
  let t2 := w32 (bigSigma0 st.a + shaMaj st.a st.b st.c)
  ⟨w32 (t1 + t2), st.a, st.b, st.c, w32 (st.d + t1), st.e, st.f, st.g⟩

/-- Compress one 64-byte chunk into the running hash value. -/
def compressChunk (hv : SHAState) (chunk : List Nat) : SHAState :=
  let st := (sha256K.zip (schedule (chunkWords chunk))).foldl shaRound hv
  ⟨w32 (hv.a + st.a), w32 (hv.b + st.b), w32 (hv.c + st.c), w32 (hv.d + st.d),
   w32 (hv.e + st.e), w32 (hv.f + st.f), w32 (hv.g + st.g), w32 (hv.h + st.h)⟩

/-- SHA-256 of a byte string, as a list of 32 bytes. -/
def sha256 (msg : List Nat) : List Nat :=
  let padded := sha256Pad msg
  let hv := (List.range (padded.length / 64)).foldl
    (fun acc i => compressChunk acc ((padded.drop (64 * i)).take 64)) sha256Init
  word32be hv.a ++ word32be hv.b ++ word32be hv.c ++ word32be hv.d
    ++ word32be hv.e ++ word32be hv.f ++ word32be hv.g ++ word32be hv.h

/-! ## HMAC-SHA256 (RFC 2104) and PBKDF2 (RFC 8018) -/

/-- HMAC-SHA256 with a 64-byte block size. -/
def hmacSha256 (key msg : List Nat) : List Nat :=
  let k0 := if 64 < key.length then sha256 key else key
  let kpad := k0 ++ List.replicate (64 - k0.length) 0
  sha256 ((kpad.map (fun b => b ^^^ 0x5c))
    ++ sha256 ((kpad.map (fun b => b ^^^ 0x36)) ++ msg))

/-- Pointwise xor of two byte strings. -/
def xorBytes (a b : List Nat) : List Nat := List.zipWith Nat.xor a b

/-- The PBKDF2 block function `F(pw, salt, c, i) = U1 xor ... xor Uc`. -/
def pbkdf2F (pw salt : List Nat) (c i : Nat) : List Nat :=
  let u1 := hmacSha256 pw (salt ++ word32be i)
  ((List.range (c - 1)).foldl
    (fun acc _ => (xorBytes acc.1 (hmacSha256 pw acc.2), hmacSha256 pw acc.2))
    (u1, u1)).1

/-- PBKDF2-HMAC-SHA256 with derived-key length `dklen` bytes; the model of
CPython `hashlib.pbkdf2_hmac` with digest `sha256`. -/
def pbkdf2HmacSha256 (pw salt : List Nat) (c dklen : Nat) : List Nat :=
  (((List.range ((dklen + 31) / 32)).map
    (fun j => pbkdf2F pw salt c (j + 1))).flatten).take dklen

/-! ## UTF-8 encoding and lowercase hex, as used by str.encode and bytes.hex -/

/-- UTF-8 encoding of a single code point. -/
def utf8Char (n : Nat) : List Nat :=
  if n < 128 then [n]
  else if n < 2048 then [192 + n / 64, 128 + n % 64]
  else if n < 65536 then [224 + n / 4096, 128 + n / 64 % 64, 128 + n % 64]
  else [240 + n / 262144, 128 + n / 4096 % 64, 128 + n / 64 % 64, 128 + n % 64]

/-- UTF-8 encoding of a string, the model of Python `str.encode("utf-8")`. -/
def utf8Encode (s : String) : List Nat :=
  s.toList.flatMap (fun ch => utf8Char ch.toNat)

/-- The sixteen lowercase hexadecimal digits. -/
def hexAlphabet : List Char := "0123456789abcdef".toList

/-- The lowercase hex digit of a nibble. -/
def hexChar (n : Nat) : Char := hexAlphabet.getD (n % 16) '0'

/-- Lowercase hexadecimal rendering of a byte string, the model of Python
`bytes.hex()`. -/
def bytesToHex (l : List Nat) : String :=
  ⟨l.flatMap (fun b => [hexChar (b / 16), hexChar b])⟩

/-! ## URL-safe base64 (RFC 4648), as used by secrets.token_urlsafe -/

/-- The URL-safe base64 alphabet. -/
def b64urlAlphabet : List Char :=
  "ABCDEFGHIJKLMNOPQRSTUVWXYZabcdefghijklmnopqrstuvwxyz0123456789-_".toList

/-- The URL-safe base64 symbol of a 6-bit value. -/
def b64Char (n : Nat) : Char := b64urlAlphabet.getD (n % 64) 'A'

/-- URL-safe base64 with the `=` padding stripped, as produced by
`base64.urlsafe_b64encode(..).rstrip(b"=")` inside `secrets.token_urlsafe`. -/
def b64urlEncodeNoPad : List Nat → List Char
  | [] => []
  | [b1] => [b64Char (b1 / 4), b64Char (b1 % 4 * 16)]
  | [b1, b2] =>
    [b64Char (b1 / 4), b64Char (b1 % 4 * 16 + b2 / 16), b64Char (b2 % 16 * 4)]
  | b1 :: b2 :: b3 :: rest =>
    b64Char (b1 / 4) :: b64Char (b1 % 4 * 16 + b2 / 16)
      :: b64Char (b2 % 16 * 4 + b3 / 64) :: b64Char (b3 % 64)
      :: b64urlEncodeNoPad rest

/-- `secrets.token_urlsafe` applied to the bytes drawn from the random
source: URL-safe base64 without padding, decoded back to text. -/
def token_urlsafe (randomBytes : List Nat) : String :=
  ⟨b64urlEncodeNoPad randomBytes⟩

/-! ## secrets.compare_digest: the CPython constant-time _tscmp loop -/

/-- The `_tscmp` accumulation loop: walk the two buffers in lockstep,
or-ing the xor of each byte pair into the accumulator, and count the
iterations performed. -/
def tscmpLoop : List Char → List Char → Nat → Nat → Nat × Nat
  | x :: xs, y :: ys, acc, steps =>
    tscmpLoop xs ys (acc ||| (x.toNat ^^^ y.toNat)) (steps + 1)
  | _, _, acc, steps => (acc, steps)

/-- The model of CPython `secrets.compare_digest` on ASCII strings,
instrumented with the number of loop iterations it performs: when the
lengths differ the left buffer is replaced by the right one and the
accumulator starts at 1, so the loop always runs `len(b)` iterations. -/
def compare_digest_full (a b : String) : Bool × Nat :=
  let ab := a.toList
  let bb := b.toList
  let left := if ab.length = bb.length then ab else bb
  let init := if ab.length = bb.length then 0 else 1
  let r := tscmpLoop left bb init 0
  (r.1 == 0, r.2)

/-- `secrets.compare_digest(a, b)`: the boolean verdict of the loop. -/
def compare_digest (a b : String) : Bool := (compare_digest_full a b).1

/-- The comparison cost: how many byte positions the loop visits. -/
def compare_digest_cost (a b : String) : Nat := (compare_digest_full a b).2

/-! ## app/auth.py -/

/-- `generate_api_key()`: `secrets.token_urlsafe(32)[:32]`, as a function of
the 32 bytes drawn from the secure random source. -/
def generate_api_key (randomBytes : List Nat) : String :=
  ⟨(b64urlEncodeNoPad randomBytes).take 32⟩

/-- `hash_api_key(api_key, salt)`:
`hashlib.pbkdf2_hmac("sha256", api_key.encode("utf-8"), salt.encode("utf-8"),
100000).hex()` with the default derived-key length of 32 bytes. -/
def hash_api_key (api_key salt : String) : String :=
  bytesToHex (pbkdf2HmacSha256 (utf8Encode api_key) (utf8Encode salt) 100000 32)

/-- `verify_api_key(api_key, stored_hash, salt)`: recompute the hash and
compare with `secrets.compare_digest`. -/
def verify_api_key (api_key stored_hash salt : String) : Bool :=
  compare_digest (hash_api_key api_key salt) stored_hash

/-- The character set accepted by `is_valid_api_key_format`, copied from the
`valid_chars` literal in the source. -/
def validChars : List Char :=
  "abcdefghijklmnopqrstuvwxyzABCDEFGHIJKLMNOPQRSTUVWXYZ0123456789-_".toList

/-- `is_valid_api_key_format(api_key)`: false on the empty (falsy) string,
false unless the length is 32, and every character must be in
`valid_chars`. -/
def is_valid_api_key_format (api_key : String) : Bool :=
  if api_key = "" then false
  else if api_key.length ≠ 32 then false
  else api_key.toList.all (fun c => validChars.contains c)

/-! ## app/dependencies.py -/

/-- Python string truthiness of an optional string: `None` and the empty
string are falsy. -/
def strTruthy (o : Option String) : Bool := o.getD "" != ""

/-- The fields of the `User` model that `get_current_user` reads or writes.
`last_login` is modelled as an abstract timestamp. -/
structure User where
  username : String
  api_key_hash : Option String
  api_key_salt : Option String
  is_active : Bool
  is_registered : Bool
  last_login : Option Nat
deriving Repr, DecidableEq

/-- A FastAPI `HTTPException` as the caller sees it: status code, `detail`
payload, and the `WWW-Authenticate` header when one is attached. -/
structure HTTPError where
  status : Nat
  detail : String
  www_authenticate : Option String
deriving Repr, DecidableEq

/-- The outcome of `get_current_user`: the authenticated user, a raised
`HTTPException`, or an unhandled exception escaping the function (the only
such site is the `session.commit()` for the last-login write). -/
inductive AuthOutcome where
  | ok (user : User)
  | httpError (e : HTTPError)
  | exn
deriving Repr, DecidableEq

/-- `HTTPException(401, "Authentication required")` with a Bearer
`WWW-Authenticate` header: no API key was supplied. -/
def missingCredentialError : HTTPError := ⟨401, "Authentication required", some "Bearer"⟩

/-- `HTTPException(401, "Invalid API key format")` with a Bearer header. -/
def malformedKeyError : HTTPError := ⟨401, "Invalid API key format", some "Bearer"⟩

/-- `HTTPException(401, "Invalid API key")` with a Bearer header: the scan
found no matching user. -/
def invalidKeyError : HTTPError := ⟨401, "Invalid API key", some "Bearer"⟩

/-- The header-extraction preamble of `get_current_user`: take `x_api_key`
when truthy, else the bearer credentials when truthy, else nothing.  The
`authorization` argument is the credential portion `HTTPBearer` parsed from
the `Authorization` header, `none` when that header is absent or not a
bearer header. -/
def extract_api_key (x_api_key authorization : Option String) : Option String :=
  if strTruthy x_api_key then x_api_key
  else if strTruthy authorization then authorization
  else none

/-- The `select(User).where(...)` filter: `api_key_hash.isnot(None)`,
`is_active`, `is_registered`. -/
def userQueryFilter (u : User) : Bool :=
  u.api_key_hash.isSome && u.is_active && u.is_registered

/-- The per-user body of the scan loop: the guard
`if user.api_key_hash and user.api_key_salt` followed by `verify_api_key`. -/
def userScanMatch (api_key : String) (u : User) : Bool :=
  strTruthy u.api_key_hash && (strTruthy u.api_key_salt
    && verify_api_key api_key (u.api_key_hash.getD "") (u.api_key_salt.getD ""))

/-- `get_current_user`, with the database session made explicit: `users` is
the user table in scan order, `now` the clock value used for
`datetime.utcnow()`, and `commit_ok` whether the `session.commit()` of the
last-login write succeeds.  A failing commit raises out of the function. -/
def get_current_user (users : List User) (authorization x_api_key : Option String)
    (now : Nat) (commit_ok : Bool) : AuthOutcome :=
  match extract_api_key x_api_key authorization with
  | none => .httpError missingCredentialError
  | some api_key =>
    if is_valid_api_key_format api_key then
      match (users.filter userQueryFilter).find? (userScanMatch api_key) with
      | some u =>
        if commit_ok then .ok { u with last_login := some now } else .exn
      | none => .httpError invalidKeyError
    else .httpError malformedKeyError

/-! ## Helper lemmas: the constant-time comparison -/

lemma tscmpLoop_fst_self : ∀ (l : List Char) (acc s : Nat), (tscmpLoop l l acc s).1 = acc
  | [], _, _ => rfl
  | x :: xs, acc, s => by
    simpa [tscmpLoop, Nat.xor_self] using tscmpLoop_fst_self xs acc (s + 1)

lemma compare_digest_self (a : String) : compare_digest a a = true := by
  simp [compare_digest, compare_digest_full, tscmpLoop_fst_self]

lemma verify_roundtrip (k s : String) : verify_api_key k (hash_api_key k s) s = true := by
  simp [verify_api_key, compare_digest_self]

lemma tscmpLoop_snd : ∀ (l b : List Char) (acc s : Nat),
    (tscmpLoop l b acc s).2 = s + min l.length b.length
  | [], b, _, s => by simp [tscmpLoop]
  | _ :: _, [], _, s => by simp [tscmpLoop]
  | x :: xs, y :: ys, acc, s => by
    have h := tscmpLoop_snd xs ys (acc ||| (x.toNat ^^^ y.toNat)) (s + 1)
    simp only [tscmpLoop, h, List.length_cons]
    omega

lemma toList_length (s : String) : s.toList.length = s.length := rfl

lemma compare_digest_cost_len (a b : String) : compare_digest_cost a b = b.length := by
  unfold compare_digest_cost compare_digest_full
  simp only [tscmpLoop_snd, Nat.zero_add]
  by_cases h : a.toList.length = b.toList.length
  · rw [if_pos h, h, Nat.min_self]
    exact toList_length b
  · rw [if_neg h, Nat.min_self]
    exact toList_length b

/-! ## Helper lemmas: digest and encoding lengths -/

lemma sha256_length (msg : List Nat) : (sha256 msg).length = 32 := by
  simp [sha256, word32be]

lemma hmacSha256_length (key msg : List Nat) : (hmacSha256 key msg).length = 32 := by
  simp [hmacSha256, sha256_length]

lemma foldlLenInv (pw : List Nat) (l : List Nat) :
    ∀ p : List Nat × List Nat, p.1.length = 32 → p.2.length = 32 →
      ((l.foldl (fun acc _ =>
        (xorBytes acc.1 (hmacSha256 pw acc.2), hmacSha256 pw acc.2)) p).1).length = 32 := by
  induction l with
  | nil => intro p h1 _; simpa using h1
  | cons a t ih =>
    intro p h1 h2
    rw [List.foldl_cons]
    exact ih _ (by simp [xorBytes, List.length_zipWith, h1, h2, hmacSha256_length])
      (by simp [hmacSha256_length])

lemma pbkdf2F_length (pw salt : List Nat) (c i : Nat) : (pbkdf2F pw salt c i).length = 32 := by
  simp only [pbkdf2F]
  exact foldlLenInv pw (List.range (c - 1)) _
    (by simp [hmacSha256_length]) (by simp [hmacSha256_length])

lemma pbkdf2_len32 (pw salt : List Nat) (c : Nat) :
    (pbkdf2HmacSha256 pw salt c 32).length = 32 := by
  have h1 : (32 + 31) / 32 = 1 := by norm_num
  simp [pbkdf2HmacSha256, h1, List.range_succ, pbkdf2F_length]

lemma hexPairs_length : ∀ l : List Nat,
    (l.flatMap (fun b => [hexChar (b / 16), hexChar b])).length = 2 * l.length
  | [] => rfl
  | b :: l => by
    simp only [List.flatMap_cons, List.length_append, List.length_cons, List.length_nil,
      hexPairs_length l]
    omega

lemma length_mk (cs : List Char) : (⟨cs⟩ : String).length = cs.length := rfl

lemma toList_mk (cs : List Char) : (⟨cs⟩ : String).toList = cs := rfl

lemma bytesToHex_length (l : List Nat) : (bytesToHex l).length = 2 * l.length := by
  rw [bytesToHex, length_mk]
  exact hexPairs_length l

lemma hash_api_key_length (k s : String) : (hash_api_key k s).length = 64 := by
  simp [hash_api_key, bytesToHex_length, pbkdf2_len32]

lemma hash_api_key_ne_empty (k s : String) : hash_api_key k s ≠ "" := by
  intro h
  have h2 := hash_api_key_length k s
  rw [h] at h2
  exact absurd h2 (by decide)

/-! ## Helper lemmas: output alphabets -/

lemma containsOfMem {c : Char} {l : List Char} (h : c ∈ l) : l.contains c = true :=
  List.elem_iff.mpr h

lemma hexChar_mem (n : Nat) : hexChar n ∈ hexAlphabet := by
  have h : ∀ m, m < 16 → hexAlphabet.getD m '0' ∈ hexAlphabet := by decide
  exact h _ (Nat.mod_lt _ (by norm_num))

lemma hexPairs_all (l : List Nat) :
    ((l.flatMap (fun b => [hexChar (b / 16), hexChar b])).all
      (fun c => hexAlphabet.contains c)) = true := by
  rw [List.all_eq_true]
  intro c hc
  rw [List.mem_flatMap] at hc
  obtain ⟨b, _, hcb⟩ := hc
  have hmem : c ∈ hexAlphabet := by
    simp only [List.mem_cons, List.not_mem_nil, or_false] at hcb
    rcases hcb with rfl | rfl
    · exact hexChar_mem _
    · exact hexChar_mem _
  exact containsOfMem hmem

lemma bytesToHex_all (l : List Nat) :
    ((bytesToHex l).toList.all (fun c => hexAlphabet.contains c)) = true := by
  simp only [bytesToHex, toList_mk]
  exact hexPairs_all l

lemma hash_api_key_hex (k s : String) :
    ((hash_api_key k s).toList.all (fun c => hexAlphabet.contains c)) = true := by
  unfold hash_api_key
  exact bytesToHex_all _

set_option maxRecDepth 2000 in
lemma b64url_all_valid : (b64urlAlphabet.all (fun c => validChars.contains c)) = true := by
  decide

lemma b64url_subset : ∀ c ∈ b64urlAlphabet, c ∈ validChars := by
  intro c hc
  exact List.elem_iff.mp (List.all_eq_true.mp b64url_all_valid c hc)

lemma b64Char_mem (n : Nat) : b64Char n ∈ validChars := by
  have hlen : n % 64 < b64urlAlphabet.length := by
    have h64 : b64urlAlphabet.length = 64 := rfl
    rw [h64]
    exact Nat.mod_lt _ (by norm_num)
  refine b64url_subset _ ?_
  rw [b64Char, List.getD_eq_getElem _ _ hlen]
  exact List.getElem_mem hlen

lemma b64urlEncodeNoPad_length : ∀ l : List Nat,
    (b64urlEncodeNoPad l).length = (4 * l.length + 2) / 3
  | [] => by simp [b64urlEncodeNoPad]
  | [b1] => by simp [b64urlEncodeNoPad]
  | [b1, b2] => by simp [b64urlEncodeNoPad]
  | b1 :: b2 :: b3 :: rest => by
    simp only [b64urlEncodeNoPad, List.length_cons, b64urlEncodeNoPad_length rest]
    omega

lemma b64urlEncodeNoPad_mem : ∀ (l : List Nat) (c : Char),
    c ∈ b64urlEncodeNoPad l → c ∈ validChars
  | [], _, h => absurd h (List.not_mem_nil _)
  | [b1], c, h => by
    rcases (by simpa [b64urlEncodeNoPad] using h : c = _ ∨ c = _) with rfl | rfl
    · exact b64Char_mem _
    · exact b64Char_mem _
  | [b1, b2], c, h => by
    rcases (by simpa [b64urlEncodeNoPad] using h : c = _ ∨ c = _ ∨ c = _) with rfl | rfl | rfl
    · exact b64Char_mem _
    · exact b64Char_mem _
    · exact b64Char_mem _
  | b1 :: b2 :: b3 :: rest, c, h => by
    rcases (by simpa [b64urlEncodeNoPad] using h :
        c = _ ∨ c = _ ∨ c = _ ∨ c = _ ∨ c ∈ b64urlEncodeNoPad rest) with
      rfl | rfl | rfl | rfl | h2
    · exact b64Char_mem _
    · exact b64Char_mem _
    · exact b64Char_mem _
    · exact b64Char_mem _
    · exact b64urlEncodeNoPad_mem rest c h2

/-! ## Helper lemmas: the URL-safe base64 alphabet, stated by character ranges -/

/-- The description the spec gives of the URL-safe base64 alphabet, as a predicate on
code points: uppercase letters, lowercase letters, digits, hyphen,
underscore. -/
def inClaimAlphabet (n : Nat) : Bool :=
  decide ((65 ≤ n ∧ n ≤ 90) ∨ (97 ≤ n ∧ n ≤ 122) ∨ (48 ≤ n ∧ n ≤ 57) ∨ n = 45 ∨ n = 95)

lemma validChars_toNat_lt : ∀ c ∈ validChars, c.toNat < 123 := by decide

set_option maxRecDepth 2000 in
lemma validChars_ofNat_eq : ∀ n, n < 123 →
    (validChars.contains (Char.ofNat n) = inClaimAlphabet n) := by decide

lemma validChars_contains_eq (c : Char) :
    validChars.contains c = inClaimAlphabet c.toNat := by
  by_cases h : c.toNat < 123
  · have hk := validChars_ofNat_eq c.toNat h
    rwa [Char.ofNat_toNat] at hk
  · have h1 : inClaimAlphabet c.toNat = false := by
      simp only [inClaimAlphabet, decide_eq_false_iff_not]
      omega
    have h2 : validChars.contains c = false := by
      cases hcc : validChars.contains c with
      | false => rfl
      | true =>
        exact absurd (validChars_toNat_lt c (List.elem_iff.mp hcc)) h
    rw [h1, h2]

/-! ## Helper lemmas: generate_api_key -/

lemma generate_api_key_len (randomBytes : List Nat) (h : randomBytes.length = 32) :
    (generate_api_key randomBytes).length = 32 := by
  rw [generate_api_key, length_mk, List.length_take, b64urlEncodeNoPad_length, h]
  decide

lemma generate_api_key_mem (randomBytes : List Nat) :
    ∀ c ∈ (generate_api_key randomBytes).toList, c ∈ validChars := by
  intro c hc
  rw [generate_api_key, toList_mk] at hc
  exact b64urlEncodeNoPad_mem randomBytes c (List.take_subset _ _ hc)

lemma generate_api_key_valid (randomBytes : List Nat) (h : randomBytes.length = 32) :
    is_valid_api_key_format (generate_api_key randomBytes) = true := by
  have hlen := generate_api_key_len randomBytes h
  have hne : generate_api_key randomBytes ≠ "" := by
    intro he
    rw [he] at hlen
    exact absurd hlen (by decide)
  unfold is_valid_api_key_format
  rw [if_neg hne, if_neg (by rw [hlen]; exact fun hh => hh rfl)]
  rw [List.all_eq_true]
  intro c hc
  exact containsOfMem (generate_api_key_mem randomBytes c hc)

/-! ## Helper lemmas: the user scan -/

lemma find?_filter_bool {α : Type} (p q : α → Bool) : ∀ l : List α,
    (l.filter p).find? q = l.find? (fun a => p a && q a)
  | [] => rfl
  | a :: l => by
    by_cases hp : p a = true
    · by_cases hq : q a = true
      · simp [List.filter_cons, hp, List.find?_cons, hq]
      · simp [List.filter_cons, hp, List.find?_cons, hq, find?_filter_bool p q l]
    · simp [List.filter_cons, hp, List.find?_cons, find?_filter_bool p q l]

/-- The effective candidate predicate of the scan: hash and salt present and
non-empty, account active and registered. -/
def amendedCandidate (u : User) : Bool :=
  strTruthy u.api_key_hash && strTruthy u.api_key_salt && u.is_active && u.is_registered

lemma strTruthy_some (s : String) : strTruthy (some s) = (s != "") := rfl

lemma boolShuffle : ∀ b1 b2 b3 b4 v : Bool,
    ((true && b3 && b4) && (b1 && (b2 && v))) = ((b1 && b2 && b3 && b4) && v) := by
  decide

lemma scanPredEq (k : String) (u : User) :
    (userQueryFilter u && userScanMatch k u)
      = (amendedCandidate u
          && verify_api_key k (u.api_key_hash.getD "") (u.api_key_salt.getD "")) := by
  unfold userQueryFilter userScanMatch amendedCandidate
  cases hx : u.api_key_hash with
  | none => simp [strTruthy]
  | some a =>
    simp only [Option.isSome_some, strTruthy_some]
    exact boolShuffle (a != "") (strTruthy u.api_key_salt) u.is_active u.is_registered _

lemma extract_empty_x (auth : Option String) :
    extract_api_key (some "") auth = extract_api_key none auth := rfl

/-! ## Concrete test fixtures for counterexamples and witnesses -/

/-- A well-formed 32-character API key. -/
def K32 : String := "aaaaaaaaaaaaaaaaaaaaaaaaaaaaaaaa"

/-- A 32-character key containing a character outside the URL-safe
alphabet. -/
def bang32 : String := "!aaaaaaaaaaaaaaaaaaaaaaaaaaaaaaa"

/-- An account whose credential salt is present but empty, with a stored
hash that verifies the key `K32` under the empty salt. -/
def emptySaltUser : User :=
  ⟨"eve", some (hash_api_key K32 ""), some "", true, true, none⟩

/-- An active, registered account holding the hash of `K32` under the salt
`somesalt`. -/
def matchedUser : User :=
  ⟨"alice", some (hash_api_key K32 "somesalt"), some "somesalt", true, true, none⟩

/-- The candidate predicate exactly as the claim words it: credential hash
and salt both non-null, account active and registered. -/
def claimCandidate (u : User) : Bool :=
  u.api_key_hash.isSome && u.api_key_salt.isSome && u.is_active && u.is_registered

/-- The scan exactly as the claim words it: restrict to `claimCandidate`
accounts and return the first for which `verify_api_key` succeeds. -/
def claim_scan (k : String) (users : List User) : Option User :=
  (users.filter claimCandidate).find?
    (fun u => verify_api_key k (u.api_key_hash.getD "") (u.api_key_salt.getD ""))

/-! ## The claims -/

/-- C1: for every key string `k` and salt string `s`,
`verify_api_key k (hash_api_key k s) s` returns true — the round-trip of
hashing and verification. -/
theorem C1_verify_hash_roundtrip (k s : String) :
    verify_api_key k (hash_api_key k s) s = true :=
  verify_roundtrip k s

/-- C7: `hash_api_key` is deterministic, it is exactly PBKDF2-HMAC-SHA256
with 100000 iterations over the UTF-8 bytes of the key and the salt, and
its output is lowercase hexadecimal: 64 characters, all drawn from
`0123456789abcdef`. -/
theorem C7_hash_deterministic_pbkdf2 (k s : String) :
    hash_api_key k s = hash_api_key k s
  ∧ hash_api_key k s
      = bytesToHex (pbkdf2HmacSha256 (utf8Encode k) (utf8Encode s) 100000 32)
  ∧ (hash_api_key k s).length = 64
  ∧ ((hash_api_key k s).toList.all (fun c => hexAlphabet.contains c)) = true :=
  ⟨rfl, rfl, hash_api_key_length k s, hash_api_key_hex k s⟩

/-- C4: `verify_api_key` compares the recomputed hash against the stored
hash with `secrets.compare_digest`, whose cost — the number of byte
positions the comparison loop visits — is the length of its second
argument, hence independent of the contents of either buffer and in
particular of the position of the first mismatching byte. -/
theorem C4_constant_time_compare :
    (∀ k h s : String, verify_api_key k h s = compare_digest (hash_api_key k s) h)
  ∧ (∀ a b : String, compare_digest_cost a b = b.length)
  ∧ (∀ a b a2 b2 : String, a.length = a2.length → b.length = b2.length →
      compare_digest_cost a b = compare_digest_cost a2 b2) := by
  refine ⟨fun _ _ _ => rfl, compare_digest_cost_len, ?_⟩
  intro a b a2 b2 _ hb
  rw [compare_digest_cost_len, compare_digest_cost_len, hb]

/-- Witness for C4: two comparisons against buffers of equal length whose
first mismatch sits at opposite ends cost the same. -/
theorem C4_constant_time_compare_witness :
    "aaaa".length = "aaaa".length ∧ "baaa".length = "aaab".length
  ∧ compare_digest_cost "aaaa" "baaa" = compare_digest_cost "aaaa" "aaab" :=
  ⟨rfl, rfl, C4_constant_time_compare.2.2 "aaaa" "baaa" "aaaa" "aaab" rfl rfl⟩

/-- C5: `is_valid_api_key_format` rejects the empty string, `"short"`, any
string whose length is not 32 (so in particular every 33-character string),
and any 32-character string containing a character outside the URL-safe
base64 alphabet (such as `!`); it accepts every 32-character string drawn
entirely from that alphabet. -/
theorem C5_format_check :
    is_valid_api_key_format "" = false
  ∧ is_valid_api_key_format "short" = false
  ∧ (∀ s : String, s.length ≠ 32 → is_valid_api_key_format s = false)
  ∧ (∀ s : String, s.length = 33 → is_valid_api_key_format s = false)
  ∧ (∀ s : String, ∀ c ∈ s.toList, inClaimAlphabet c.toNat = false →
      is_valid_api_key_format s = false)
  ∧ (∀ s : String, s.length = 32 → (∀ c ∈ s.toList, inClaimAlphabet c.toNat = true) →
      is_valid_api_key_format s = true) := by
  refine ⟨rfl, rfl, ?_, ?_, ?_, ?_⟩
  · intro s h
    unfold is_valid_api_key_format
    by_cases he : s = ""
    · rw [if_pos he]
    · rw [if_neg he, if_pos h]
  · intro s h
    unfold is_valid_api_key_format
    by_cases he : s = ""
    · rw [if_pos he]
    · rw [if_neg he, if_pos (by rw [h]; decide)]
  · intro s c hc hbad
    unfold is_valid_api_key_format
    by_cases he : s = ""
    · rw [if_pos he]
    · rw [if_neg he]
      by_cases hl : s.length ≠ 32
      · rw [if_pos hl]
      · rw [if_neg hl]
        cases hall : s.toList.all (fun c => validChars.contains c) with
        | false => rfl
        | true =>
          have h1 := List.all_eq_true.mp hall c hc
          rw [validChars_contains_eq, hbad] at h1
          exact absurd h1 (by decide)
  · intro s hlen hall
    have hne : s ≠ "" := by
      intro he
      rw [he] at hlen
      exact absurd hlen (by decide)
    unfold is_valid_api_key_format
    rw [if_neg hne, if_neg (by rw [hlen]; exact fun hh => hh rfl)]
    rw [List.all_eq_true]
    intro c hc
    rw [validChars_contains_eq]
    exact hall c hc

/-- Witness for C5: the explicit examples the claim names, obtained by
instantiating the quantified parts at concrete strings. -/
theorem C5_format_check_witness :
    ("AAAAAAAAAAAAAAAAAAAAAAAAAAAAAAAAA" : String).length = 33
  ∧ is_valid_api_key_format "AAAAAAAAAAAAAAAAAAAAAAAAAAAAAAAAA" = false
  ∧ is_valid_api_key_format bang32 = false
  ∧ is_valid_api_key_format "abcdefghijklmnopqrstuvwxyzABCDEF" = true :=
  ⟨by decide,
   C5_format_check.2.2.2.1 _ (by decide),
   C5_format_check.2.2.2.2.1 bang32 '!' (by decide) (by decide),
   C5_format_check.2.2.2.2.2 _ (by decide) (by decide)⟩

/-- C6: for any draw of 32 bytes from the random source, the key built by
`generate_api_key` has exactly 32 characters, every character lies in the
URL-safe base64 alphabet, and `is_valid_api_key_format` accepts it. -/
theorem C6_generate_api_key_wellformed (randomBytes : List Nat)
    (h : randomBytes.length = 32) :
    (generate_api_key randomBytes).length = 32
  ∧ (∀ c ∈ (generate_api_key randomBytes).toList, inClaimAlphabet c.toNat = true)
  ∧ is_valid_api_key_format (generate_api_key randomBytes) = true := by
  refine ⟨generate_api_key_len randomBytes h, ?_, generate_api_key_valid randomBytes h⟩
  intro c hc
  rw [← validChars_contains_eq]
  exact containsOfMem (generate_api_key_mem randomBytes c hc)

/-- Witness for C6: a concrete 32-byte draw. -/
theorem C6_generate_api_key_wellformed_witness :
    (List.replicate 32 0).length = 32
  ∧ (generate_api_key (List.replicate 32 0)).length = 32
  ∧ is_valid_api_key_format (generate_api_key (List.replicate 32 0)) = true :=
  ⟨by decide,
   (C6_generate_api_key_wellformed (List.replicate 32 0) (by decide)).1,
   (C6_generate_api_key_wellformed (List.replicate 32 0) (by decide)).2.2⟩

/-- C3 fails as stated: the three authentication failures all carry status
401 and the same `WWW-Authenticate` header, but their `detail` payloads
differ — `Authentication required` versus `Invalid API key format` versus
`Invalid API key` — so the caller-visible response does distinguish a
missing credential from a malformed one from an unmatched one. -/
theorem C3_counterexample :
    get_current_user [] none none 0 true = .httpError missingCredentialError
  ∧ get_current_user [] none (some bang32) 0 true = .httpError malformedKeyError
  ∧ get_current_user [] none (some K32) 0 true = .httpError invalidKeyError
  ∧ missingCredentialError ≠ malformedKeyError
  ∧ missingCredentialError ≠ invalidKeyError
  ∧ malformedKeyError ≠ invalidKeyError := by
  refine ⟨by decide, by decide, by decide, by decide, by decide, by decide⟩

/-- C3 amended: every failure of the authenticate operation is caller-visible
as the same 401 status with the same `WWW-Authenticate: Bearer` header, and
is one of the three fixed error values; only the `detail` string
distinguishes them. -/
theorem C3_failures_share_status (users : List User) (auth x : Option String)
    (now : Nat) (c : Bool) (e : HTTPError)
    (h : get_current_user users auth x now c = .httpError e) :
    e.status = 401 ∧ e.www_authenticate = some "Bearer"
  ∧ (e = missingCredentialError ∨ e = malformedKeyError ∨ e = invalidKeyError) := by
  unfold get_current_user at h
  split at h
  · cases h
    exact ⟨rfl, rfl, Or.inl rfl⟩
  · split at h
    · split at h
      · split at h
        · cases h
        · cases h
      · cases h
        exact ⟨rfl, rfl, Or.inr (Or.inr rfl)⟩
    · cases h
      exact ⟨rfl, rfl, Or.inr (Or.inl rfl)⟩

/-- Witness for C3: the missing-credential failure instantiates the amended
statement. -/
theorem C3_failures_share_status_witness :
    missingCredentialError.status = 401
  ∧ missingCredentialError.www_authenticate = some "Bearer"
  ∧ (missingCredentialError = missingCredentialError
      ∨ missingCredentialError = malformedKeyError
      ∨ missingCredentialError = invalidKeyError) :=
  C3_failures_share_status [] none none 0 true missingCredentialError (by decide)

/-- C8 fails as stated: with an X-API-Key header that is present but empty
and a bearer credential available, extraction falls back to the bearer
credential even though the X-API-Key header is not absent. -/
theorem C8_counterexample :
    extract_api_key (some "") (some "sometoken") = some "sometoken"
  ∧ (some "" : Option String) ≠ none := by
  exact ⟨by decide, by decide⟩

/-- C8 amended: extraction prefers a non-empty X-API-Key header; when that
header is absent or empty it falls back to the bearer credential when that
is non-empty; when neither yields a key the operation fails with the
missing-credential error uniformly in the user table, i.e. without
consulting it. -/
theorem C8_extraction_order :
    (∀ (k : String) (auth : Option String), k ≠ "" →
      extract_api_key (some k) auth = some k)
  ∧ (∀ a : String, a ≠ "" → extract_api_key none (some a) = some a)
  ∧ extract_api_key none none = none
  ∧ extract_api_key none (some "") = none
  ∧ (∀ (users : List User) (auth x : Option String) (now : Nat) (c : Bool),
      extract_api_key x auth = none →
      get_current_user users auth x now c = .httpError missingCredentialError) := by
  refine ⟨?_, ?_, rfl, rfl, ?_⟩
  · intro k auth hk
    unfold extract_api_key
    rw [if_pos (by rw [strTruthy_some]; exact bne_iff_ne.mpr hk)]
  · intro a ha
    unfold extract_api_key
    rw [if_neg (by decide), if_pos (by rw [strTruthy_some]; exact bne_iff_ne.mpr ha)]
  · intro users auth x now c hx
    unfold get_current_user
    rw [hx]

/-- Witness for C8: concrete headers for each clause of the amended
statement. -/
theorem C8_extraction_order_witness :
    extract_api_key (some "k1") (some "k2") = some "k1"
  ∧ extract_api_key none (some "k2") = some "k2"
  ∧ get_current_user [] (some "") none 5 false = .httpError missingCredentialError :=
  ⟨C8_extraction_order.1 "k1" (some "k2") (by decide),
   C8_extraction_order.2.1 "k2" (by decide),
   C8_extraction_order.2.2.2.2 [] (some "") none 5 false (by decide)⟩

/-- C10: an X-API-Key header holding the empty string behaves exactly like
an absent X-API-Key header — the operation falls back to the bearer
credential — and when the bearer credential is also absent or empty the
result is the missing-credential error, not the malformed-format error. -/
theorem C10_empty_x_api_key :
    (∀ (users : List User) (auth : Option String) (now : Nat) (c : Bool),
      get_current_user users auth (some "") now c
        = get_current_user users auth none now c)
  ∧ (∀ (users : List User) (now : Nat) (c : Bool) (a : Option String),
      a = none ∨ a = some "" →
      get_current_user users a (some "") now c = .httpError missingCredentialError) := by
  constructor
  · intro users auth now c
    unfold get_current_user
    rw [extract_empty_x]
  · intro users now c a h
    rcases h with rfl | rfl
    · rfl
    · rfl

/-- Witness for C10: both headers empty or absent yield the
missing-credential error. -/
theorem C10_empty_x_api_key_witness :
    get_current_user [] none (some "") 3 true = .httpError missingCredentialError :=
  C10_empty_x_api_key.2 [] 3 true none (Or.inl rfl)

/-- C2 fails as stated: `emptySaltUser` has non-null hash and salt, is
active and registered — a candidate in the sense of the claim — and its stored
hash verifies the presented key `K32` under its (empty) salt, so the
claimed scan returns it; the code, whose loop guard requires a *truthy*
(non-empty) salt, skips it and fails with the invalid-credential error. -/
theorem C2_counterexample :
    claimCandidate emptySaltUser = true
  ∧ verify_api_key K32 (emptySaltUser.api_key_hash.getD "")
      (emptySaltUser.api_key_salt.getD "") = true
  ∧ claim_scan K32 [emptySaltUser] = some emptySaltUser
  ∧ get_current_user [emptySaltUser] none (some K32) 0 true
      = .httpError invalidKeyError := by
  have h2 : verify_api_key K32 (emptySaltUser.api_key_hash.getD "")
      (emptySaltUser.api_key_salt.getD "") = true := by
    show verify_api_key K32 (hash_api_key K32 "") "" = true
    exact verify_roundtrip K32 ""
  have h1 : claimCandidate emptySaltUser = true := rfl
  refine ⟨h1, h2, ?_, ?_⟩
  · simp [claim_scan, List.filter_cons, h1, List.find?_cons, h2]
  · have htr : strTruthy (some K32) = true := by decide
    have hex : extract_api_key (some K32) none = some K32 := by
      unfold extract_api_key
      rw [if_pos htr]
    have hval : is_valid_api_key_format K32 = true := by decide
    have hq : userQueryFilter emptySaltUser = true := rfl
    have hsm : userScanMatch K32 emptySaltUser = false := by
      unfold userScanMatch
      rw [show strTruthy emptySaltUser.api_key_salt = false from rfl,
        Bool.false_and, Bool.and_false]
    unfold get_current_user
    rw [hex]
    simp [hval, hq, hsm, List.filter_cons, List.find?_cons]

/-- C2 amended: given an extracted, well-formed key, the operation scans
exactly the accounts whose hash and salt are non-null *and non-empty* and
that are active and registered, in table order; the first that verifies is
returned (with its last-login timestamp set) when the commit succeeds; if
none verifies the operation fails with the invalid-credential error. -/
theorem C2_scan_behavior (users : List User) (auth x : Option String) (k : String)
    (now : Nat) (c : Bool)
    (hx : extract_api_key x auth = some k)
    (hf : is_valid_api_key_format k = true) :
    get_current_user users auth x now c =
      match users.find? (fun u => amendedCandidate u
          && verify_api_key k (u.api_key_hash.getD "") (u.api_key_salt.getD "")) with
      | some u => if c then .ok { u with last_login := some now } else .exn
      | none => .httpError invalidKeyError := by
  unfold get_current_user
  rw [hx]
  simp only [hf, if_true]
  rw [find?_filter_bool]
  rw [show (fun u => userQueryFilter u && userScanMatch k u)
        = (fun u => amendedCandidate u
            && verify_api_key k (u.api_key_hash.getD "") (u.api_key_salt.getD ""))
      from funext (scanPredEq k)]

/-- Witness for C2: a well-formed key against an empty table reaches the
invalid-credential error. -/
theorem C2_scan_behavior_witness :
    extract_api_key (some K32) none = some K32
  ∧ is_valid_api_key_format K32 = true
  ∧ get_current_user [] none (some K32) 11 true = .httpError invalidKeyError := by
  have h1 : extract_api_key (some K32) none = some K32 := by decide
  have h2 : is_valid_api_key_format K32 = true := by decide
  refine ⟨h1, h2, ?_⟩
  have h3 := C2_scan_behavior [] none (some K32) K32 11 true h1 h2
  simpa using h3

/-- C9: the last-login write is not best-effort in the code.  `matchedUser`
verifies the presented key, and with a succeeding commit the user is
returned; but when the commit of the last-login timestamp fails, the
exception escapes `get_current_user` and the matched account is *not*
returned — authentication fails instead of succeeding. -/
theorem C9_commit_failure_fails_auth :
    userScanMatch K32 matchedUser = true
  ∧ get_current_user [matchedUser] none (some K32) 7 true
      = .ok { matchedUser with last_login := some 7 }
  ∧ get_current_user [matchedUser] none (some K32) 7 false = .exn := by
  have hb : strTruthy matchedUser.api_key_hash = true := by
    rw [show matchedUser.api_key_hash = some (hash_api_key K32 "somesalt") from rfl,
      strTruthy_some]
    exact bne_iff_ne.mpr (hash_api_key_ne_empty _ _)
  have hs : strTruthy matchedUser.api_key_salt = true := by decide
  have hv : verify_api_key K32 (matchedUser.api_key_hash.getD "")
      (matchedUser.api_key_salt.getD "") = true := by
    show verify_api_key K32 (hash_api_key K32 "somesalt") "somesalt" = true
    exact verify_roundtrip K32 "somesalt"
  have hm : userScanMatch K32 matchedUser = true := by
    unfold userScanMatch
    rw [hb, hs, hv]
    rfl
  have hq : userQueryFilter matchedUser = true := rfl
  have hex : extract_api_key (some K32) none = some K32 := by decide
  have hval : is_valid_api_key_format K32 = true := by decide
  refine ⟨hm, ?_, ?_⟩
  · unfold get_current_user
    rw [hex]
    simp [hval, hq, hm, List.filter_cons, List.find?_cons]
  · unfold get_current_user
    rw [hex]
    simp [hval, hq, hm, List.filter_cons, List.find?_cons]

end ClimateGuard
